import Mathlib

/-!
Shallow embedding of the function-calling notebooks of this repository
(ChinookMusicDBExample.ipynb, Coffee.ipynb, SummariseInput.ipynb and the two
unnamed notebooks): the dispatch-table "broker" pattern, the arithmetic and
string handlers, the SQL query handler, the conversation driver and the
retry-wrapped chat-completion request.

External collaborators (the HTTP POST, `json.loads`, the SQLite connection,
the model itself) are passed in as explicit function parameters.  A Python
exception escaping a piece of code is modelled by `Option`/`Except`: a
`none` (resp. `.error`) result means the code raised.
-/

namespace OpenAIInv

/-- JSON values as produced by `json.loads`.  Numbers are modelled as
integers: every number appearing in the notebooks is integral. -/
inductive JsonValue where
  | null
  | bool (b : Bool)
  | num (n : Int)
  | str (s : String)
  | arr (elems : List JsonValue)
  | obj (fields : List (String × JsonValue))

/-- Lookup of a key in a decoded JSON object, i.e. Python `d[key]`.
`none` models the `KeyError` (key absent) or `TypeError` (subscripting a
non-dict) that Python raises. -/
def jsonLookup : List (String × JsonValue) → String → Option JsonValue
  | [], _ => none
  | (k, v) :: rest, key => if k = key then some v else jsonLookup rest key

/-- Python subscript `v[key]` on a decoded JSON value. -/
def JsonValue.get : JsonValue → String → Option JsonValue
  | .obj fields, key => jsonLookup fields key
  | _, _ => none

/-- Python's implicit int coercion: `int` and `bool` operands of `+` and `*`
are both treated as integers (`True` is `1`, `False` is `0`). -/
def js_int : JsonValue → Option Int
  | .num n => some n
  | .bool b => some (if b then 1 else 0)
  | _ => none

/-- Python string repetition `s * n` (empty for non-positive `n`). -/
def strRep (s : String) (n : Int) : String :=
  String.join (List.replicate n.toNat s)

/-- Python list repetition `l * n` (empty for non-positive `n`). -/
def listRep (l : List JsonValue) (n : Int) : List JsonValue :=
  (List.replicate n.toNat l).flatten

/-- Python binary `x + y` on JSON values: int/bool addition, string
concatenation, list concatenation; every other combination raises
`TypeError`, modelled by `none`. -/
def py_add (x y : JsonValue) : Option JsonValue :=
  match js_int x, js_int y with
  | some a, some b => some (.num (a + b))
  | _, _ =>
    match x, y with
    | .str a, .str b => some (.str (a ++ b))
    | .arr a, .arr b => some (.arr (a ++ b))
    | _, _ => none

/-- Python binary `x * y` on JSON values: int/bool multiplication, and
string/list repetition by an int; every other combination raises
`TypeError`, modelled by `none`. -/
def py_mul (x y : JsonValue) : Option JsonValue :=
  match js_int x, js_int y with
  | some a, some b => some (.num (a * b))
  | some a, none =>
    match y with
    | .str s => some (.str (strRep s a))
    | .arr l => some (.arr (listRep l a))
    | _ => none
  | none, some b =>
    match x with
    | .str s => some (.str (strRep s b))
    | .arr l => some (.arr (listRep l b))
    | _ => none
  | none, none => none

/-- Left fold of a fallible Python binary operation over an argument list;
a raise (`none`) at any step propagates. -/
def pyFold (op : JsonValue → JsonValue → Option JsonValue) (acc : JsonValue) :
    List JsonValue → Option JsonValue
  | [] => some acc
  | x :: xs =>
    match op acc x with
    | none => none
    | some acc2 => pyFold op acc2 xs

/-- `def add (*args): return sum(args)` — Python `sum` folds `+` starting
from the int `0`, so a non-numeric argument raises `TypeError` (`none`). -/
def add (args : List JsonValue) : Option JsonValue :=
  pyFold py_add (JsonValue.num 0) args

/-- `def multiply (*args): rc = 1; for i in args: rc = rc * i; return rc` —
a left fold of `*` starting from the int `1`. -/
def multiply (args : List JsonValue) : Option JsonValue :=
  pyFold py_mul (JsonValue.num 1) args

/-- The `function_call` field of a model reply: a function name and the raw
(JSON-text) argument payload. -/
structure FunctionCall where
  fn : String
  arguments : String

/-- One conversation turn, as the dict the notebooks pass around:
`role`, `content` (possibly `None`), an optional `function_call`, and the
optional `name` tag used on function-role turns. -/
structure Message where
  role : String
  content : Option String
  function_call : Option FunctionCall
  tag : Option String

/-- Python `str(content)` as used in the f-string of the no-function branch:
`None` renders as the text `None`. -/
def pyContent : Option String → String
  | some s => s
  | none => "None"

/-- Python iterable unpacking `f(*v)` of a decoded JSON value: a list spreads
its elements, a string spreads its characters, a dict spreads its keys;
anything else raises `TypeError` (`none`). -/
def pyIter : JsonValue → Option (List JsonValue)
  | .arr xs => some xs
  | .str s => some (s.data.map (fun c => .str (String.mk [c])))
  | .obj fields => some (fields.map (fun p => .str p.1))
  | _ => none

/-- The dispatch table of the first unnamed notebook:
`available_functions = {"multiply": multiply, "add": add}`.  `none` models
the `KeyError` of a lookup of an unregistered name. -/
def available_functions : String → Option (List JsonValue → Option JsonValue)
  | "multiply" => some multiply
  | "add" => some add
  | _ => none

/-- What the dispatch cell of the first unnamed notebook prints: either
`print(result)` in the function branch or the fixed no-function line. -/
inductive Nb1Output where
  | result (v : JsonValue)
  | noFunction (line : String)

/-- The dispatch cell of the first unnamed notebook:

`if function_call present: f_args = json.loads(args)["input"];`
`result = available_functions[to_call](*f_args); print(result)`
`else: print("no function was returned - " + content)`.

`loads` is the external `json.loads` (`none` = it raised).  The evaluation
order of the cell is kept: decode, subscript `["input"]`, table lookup,
argument spread, handler invocation; a raise at any point (`none`)
propagates out — the cell has no try/except. -/
def run_nb1 (loads : String → Option JsonValue) (response_message : Message) :
    Option Nb1Output :=
  match response_message.function_call with
  | some fc =>
    (loads fc.arguments).bind (fun v =>
      (v.get "input").bind (fun f_args =>
        (available_functions fc.fn).bind (fun h =>
          (pyIter f_args).bind (fun spread =>
            (h spread).map (fun r => Nb1Output.result r)))))
  | none =>
    some (.noFunction ("no function was returned - " ++
      pyContent response_message.content))

/-- `ask_database` of ChinookMusicDBExample.  The collaborator `conn` models
`lambda q: str(conn.execute(q).fetchall())`: `.ok` carries the serialized
result set, `.error` the text of the exception `conn.execute` raised (also
for a non-string query value, hence the `JsonValue` argument).  The
try/except of the source is the `match`: the handler itself returns a plain
`String` — it cannot raise. -/
def ask_database (conn : JsonValue → Except String String)
    (query : JsonValue) : String :=
  match conn query with
  | .ok results => results
  | .error e => "query failed with error: " ++ e

/-- `execute_function_call` of ChinookMusicDBExample:

`if name == "ask_database": query = json.loads(args)["query"];`
`results = ask_database(conn, query)`
`else: results = "Error: function " + name + " does not exist"`.

`none` models a raise: subscripting a missing/None `function_call`, a
`json.loads` failure, or a missing `"query"` key — none of these is caught. -/
def execute_function_call (loads : String → Option JsonValue)
    (conn : JsonValue → Except String String) (message : Message) :
    Option String :=
  match message.function_call with
  | none => none
  | some fc =>
    if fc.fn = "ask_database" then
      (loads fc.arguments).bind (fun v =>
        (v.get "query").map (fun q => ask_database conn q))
    else
      some ("Error: function " ++ fc.fn ++ " does not exist")

/-- The system turn `do_conversation` builds. -/
def chinookSys : Message :=
  { role := "system"
    content := some "Answer user questions by generating SQL queries against the Chinook Music Database. Do not include your reasoning."
    function_call := none
    tag := none }

/-- The user turn `do_conversation` builds from its input. -/
def chinookUser (input : String) : Message :=
  { role := "user", content := some input, function_call := none, tag := none }

/-- The function-role turn `do_conversation` appends:
`{"role": "function", "content": results, "name": fc_name}`. -/
def chinookFnTurn (results fcName : String) : Message :=
  { role := "function", content := some results, function_call := none
    tag := some fcName }

/-- `do_conversation` of ChinookMusicDBExample.  `oracle` models one
chat-completion round-trip returning the parsed `choices[0].message`; its
`Bool` argument records whether the function list was sent and its last
argument the forced function name — the first call is
`chat_completion_request(messages, functions, function_call={"name":"ask_database"})`,
the follow-up is `chat_completion_request(messages)`.  The result is the
final `messages` list (what `pretty_print_conversation` receives); `none`
means an uncaught raise out of `execute_function_call`. -/
def do_conversation (oracle : List Message → Bool → Option String → Message)
    (loads : String → Option JsonValue)
    (conn : JsonValue → Except String String) (input : String) :
    Option (List Message) :=
  let start := [chinookSys, chinookUser input]
  let assistant_message := oracle start true (some "ask_database")
  let ms := start ++ [assistant_message]
  match assistant_message.function_call with
  | some fc =>
    match execute_function_call loads conn assistant_message with
    | none => none
    | some results =>
      let ms2 := ms ++ [chinookFnTurn results fc.fn]
      some (ms2 ++ [oracle ms2 false none])
  | none => some ms

/-- Tenacity's `stop_after_attempt`: run the thunk, retrying while it raises,
for at most `n` attempts; after the last failing attempt the exception is
re-raised.  Returns the result together with the number of attempts made.
The random-exponential wait only affects timing, not values, and is not
modelled. -/
def retryRun {E A : Type} (f : Unit → Except E A) : Nat → Except E A × Nat
  | 0 => (f (), 1)
  | 1 => (f (), 1)
  | n + 2 =>
    match f () with
    | .ok a => (.ok a, 1)
    | .error _ =>
      let p := retryRun f (n + 1)
      (p.1, p.2 + 1)

/-- `chat_completion_request`, identical in every notebook.  `apiKey` models
`openai.api_key` (`none` = unset, so `"Bearer " + None` raises `TypeError`
before the try block); `post` models `requests.post` (`.error` = a raised
transport exception).  The body catches every exception of the try block,
prints, and returns the exception object as its value — hence the
`Sum resp String` result: `.inl` a response, `.inr` a returned exception.
The `@retry(..., stop=stop_after_attempt(3))` decorator is `retryRun ... 3`;
the second component counts the attempts actually made. -/
def chat_completion_request {resp : Type} (apiKey : Option String)
    (post : Unit → Except String resp) : Except String (Sum resp String) × Nat :=
  retryRun
    (fun _ =>
      match apiKey with
      | none => Except.error "TypeError: can only concatenate str (not NoneType) to str"
      | some _ =>
        match post () with
        | .ok r => Except.ok (Sum.inl r)
        | .error e => Except.ok (Sum.inr e)) 3

/-- Character walk of `alternate_cases` starting at position `k`: lowercase
at even positions, uppercase at odd ones. -/
def alternateChars : List Char → Nat → List Char
  | [], _ => []
  | c :: cs, k =>
    (if k % 2 = 0 then c.toLower else c.toUpper) :: alternateChars cs (k + 1)

/-- `alternate_cases` of the second unnamed notebook.  The committed cell is
not valid Python (the line `c  = i % 2 == 0?c` is a syntax error); this is
the evident intent — `if i % 2 == 0: c = c.lower() else: c = c.upper()` —
which reproduces the recorded cell output `hElLo i aM BoB`.  Case mapping is
ASCII, as in the recorded run. -/
def alternate_cases (input : String) : String :=
  String.mk (alternateChars input.data 0)

/-! Concrete collaborators used to evaluate the definitions: each models an
external call (`json.loads`, the SQLite connection, `requests.post`, the
model) at the specific values a scenario feeds it. -/

/-- Recorded payload of the `add` scenario (cell output of the first unnamed
notebook, whitespace normalised). -/
def addPayload : String := "\x7b\"input\": [5, 34, 100]\x7d"

/-- `json.loads` evaluated at `addPayload`. -/
def loadsC7 : String → Option JsonValue := fun s =>
  if s = addPayload then
    some (.obj [("input", .arr [.num 5, .num 34, .num 100])])
  else none

/-- The recorded assistant turn requesting `add` with `[5, 34, 100]`. -/
def msgAdd139 : Message :=
  { role := "assistant", content := none
    function_call := some { fn := "add", arguments := addPayload }
    tag := none }

/-- A payload whose single `input` element is the JSON string `"a"`. -/
def addStrPayload : String := "\x7b\"input\": [\"a\"]\x7d"

/-- `json.loads` evaluated at `addStrPayload`. -/
def loadsAddStr : String → Option JsonValue := fun s =>
  if s = addStrPayload then some (.obj [("input", .arr [.str "a"])]) else none

/-- An assistant turn requesting `add` on the non-numeric list `["a"]`. -/
def msgAddStr : Message :=
  { role := "assistant", content := none
    function_call := some { fn := "add", arguments := addStrPayload }
    tag := none }

/-- An assistant turn with text content and no function_call. -/
def msgNoFc : Message :=
  { role := "assistant", content := some "hi", function_call := none
    tag := none }

/-- `json.loads` on input it cannot decode: it raises (`none`). -/
def loadsNoneDemo : String → Option JsonValue := fun _ => none

/-- An assistant turn for `ask_database` whose argument payload is truncated
JSON. -/
def msgBadJson : Message :=
  { role := "assistant", content := none
    function_call := some { fn := "ask_database", arguments := "\x7b\"query\": " }
    tag := none }

/-- A second truncated-payload turn, used to evaluate the amended statement. -/
def msgBadJson2 : Message :=
  { role := "assistant", content := none
    function_call := some { fn := "ask_database", arguments := "not json at all" }
    tag := none }

/-- A connection on which every query succeeds with one row. -/
def connOkDemo : JsonValue → Except String String := fun _ => .ok "[(275,)]"

/-- A connection on which every query raises a syntax error. -/
def connErrDemo : JsonValue → Except String String := fun _ =>
  .error "near SELEC: syntax error"

/-- A model oracle that requests the unregistered function `unicorn` on the
first round-trip and answers with text on the follow-up. -/
def oracleUnicorn : List Message → Bool → Option String → Message :=
  fun ms _ _ =>
    if ms.length = 2 then
      { role := "assistant", content := none
        function_call := some { fn := "unicorn", arguments := "\x7b\x7d" }
        tag := none }
    else
      { role := "assistant", content := some "I could not run a function."
        function_call := none, tag := none }

/-- Raw argument payload of a well-formed `ask_database` request. -/
def qPayload : String := "\x7b\"query\": \"select count(*) from artists\"\x7d"

/-- `json.loads` evaluated at `qPayload`. -/
def loadsQueryDemo : String → Option JsonValue := fun s =>
  if s = qPayload then
    some (.obj [("query", .str "select count(*) from artists")])
  else none

/-- A model oracle that requests `ask_database` on the first round-trip and
summarises on the follow-up. -/
def oracleAsk : List Message → Bool → Option String → Message :=
  fun ms _ _ =>
    if ms.length = 2 then
      { role := "assistant", content := none
        function_call := some { fn := "ask_database", arguments := qPayload }
        tag := none }
    else
      { role := "assistant", content := some "There are 275 artists."
        function_call := none, tag := none }

/-- A transport that raises a connection error on every attempt. -/
def postFailDemo : Unit → Except String Unit := fun _ => .error "ConnectionError"

/-- A transport that raises a read timeout on every attempt. -/
def postFailDemo2 : Unit → Except String Unit := fun _ => .error "ReadTimeout"

/-! Helper lemmas. -/

/-- Folding Python `+` from an integer accumulator over integers sums them. -/
theorem pyFold_add_nums (xs : List Int) : ∀ a : Int,
    pyFold py_add (JsonValue.num a) (xs.map JsonValue.num) =
      some (.num (a + xs.sum)) := by
  induction xs with
  | nil => intro a; simp [pyFold]
  | cons x xs ih =>
    intro a
    have hstep : py_add (JsonValue.num a) (JsonValue.num x) =
        some (.num (a + x)) := rfl
    simp only [List.map_cons, pyFold, hstep, List.sum_cons]
    rw [ih (a + x)]
    congr 2
    ring

/-- Folding Python `*` from an integer accumulator over integers multiplies
them. -/
theorem pyFold_mul_nums (xs : List Int) : ∀ a : Int,
    pyFold py_mul (JsonValue.num a) (xs.map JsonValue.num) =
      some (.num (a * xs.prod)) := by
  induction xs with
  | nil => intro a; simp [pyFold]
  | cons x xs ih =>
    intro a
    have hstep : py_mul (JsonValue.num a) (JsonValue.num x) =
        some (.num (a * x)) := rfl
    simp only [List.map_cons, pyFold, hstep, List.prod_cons]
    rw [ih (a * x)]
    congr 2
    ring

/-- The character walk preserves length. -/
theorem alternateChars_length (l : List Char) : ∀ k,
    (alternateChars l k).length = l.length := by
  induction l with
  | nil => intro k; simp [alternateChars]
  | cons c cs ih => intro k; simp [alternateChars, ih]

/-- Position `i` of the walk started at `k` is the source character lowered
at even `k + i` and uppered at odd `k + i`. -/
theorem alternateChars_getElem (l : List Char) : ∀ k i,
    (alternateChars l k)[i]? =
      l[i]?.map (fun c => if (k + i) % 2 = 0 then c.toLower else c.toUpper) := by
  induction l with
  | nil => intro k i; simp [alternateChars]
  | cons c cs ih =>
    intro k i
    cases i with
    | zero => simp [alternateChars]
    | succ j =>
      have h := ih (k + 1) j
      have e : k + 1 + j = k + (j + 1) := by omega
      rw [e] at h
      simpa [alternateChars] using h

/-- A thunk that succeeds is not retried: one attempt, its value returned. -/
theorem retryRun_ok {E A : Type} (f : Unit → Except E A) (x : A)
    (hf : f () = .ok x) : ∀ n, retryRun f n = (.ok x, 1) := by
  intro n
  match n with
  | 0 => simp [retryRun, hf]
  | 1 => simp [retryRun, hf]
  | m + 2 => simp [retryRun, hf]

/-- A thunk that always raises is attempted the full `n + 1` times and the
exception is then re-raised. -/
theorem retryRun_error {E A : Type} (f : Unit → Except E A) (e : E)
    (hf : f () = .error e) : ∀ n, retryRun f (n + 1) = (.error e, n + 1) := by
  intro n
  induction n with
  | zero => simp [retryRun, hf]
  | succ m ih => simp [retryRun, hf, ih]

/-! Claim theorems. -/

/-- C7: on the recorded turn requesting `add` with array field
`[5, 34, 100]`, the dispatch cell spreads the array positionally and prints
the result `139`; in general `add` over a list of numbers returns their sum
and `multiply` their product. -/
theorem c7_add_spread_sum :
    run_nb1 loadsC7 msgAdd139 = some (.result (.num 139)) ∧
    ∀ xs : List Int,
      add (xs.map JsonValue.num) = some (.num xs.sum) ∧
      multiply (xs.map JsonValue.num) = some (.num xs.prod) := by
  refine ⟨rfl, fun xs => ⟨?_, ?_⟩⟩
  · simpa [add] using pyFold_add_nums xs 0
  · simpa [multiply] using pyFold_mul_nums xs 1

/-- C10: `add` of no arguments is `0` and `multiply` of no arguments is `1`;
both handlers are total on numeric argument lists of every length,
including the empty and singleton lists. -/
theorem c10_identity_elements :
    add [] = some (.num 0) ∧ multiply [] = some (.num 1) ∧
    (∀ x : Int,
      add [JsonValue.num x] = some (.num x) ∧
      multiply [JsonValue.num x] = some (.num x)) ∧
    ∀ xs : List Int,
      (add (xs.map JsonValue.num)).isSome ∧
      (multiply (xs.map JsonValue.num)).isSome := by
  refine ⟨rfl, rfl, fun x => ⟨?_, ?_⟩, fun xs => ⟨?_, ?_⟩⟩
  · simpa using pyFold_add_nums [x] 0
  · simpa using pyFold_mul_nums [x] 1
  · simp [add, pyFold_add_nums xs 0]
  · simp [multiply, pyFold_mul_nums xs 1]

/-- C8: `alternate_cases` maps the recorded scenario input to
`hElLo i aM BoB`, and for every input string it returns a string of the same
length whose character at each even position is the source character
lowercased and at each odd position uppercased — the fixed lowercase-first
starting parity. -/
theorem c8_alternate_cases_parity :
    alternate_cases "hello I am Bob" = "hElLo i aM BoB" ∧
    ∀ s : String,
      (alternate_cases s).length = s.length ∧
      ∀ i : Nat,
        (alternate_cases s).data[i]? =
          s.data[i]?.map (fun c => if i % 2 = 0 then c.toLower else c.toUpper) := by
  refine ⟨by decide, fun s => ⟨?_, fun i => ?_⟩⟩
  · show (alternateChars s.data 0).length = s.data.length
    exact alternateChars_length s.data 0
  · show (alternateChars s.data 0)[i]? = _
    simpa using alternateChars_getElem s.data 0 i

/-- C4: for every query, `ask_database` returns the serialized result set
when the connection call succeeds and, when it raises, the text
`query failed with error: ...`; it returns a plain `String`, so no exception
passes its boundary. -/
theorem c4_ask_database_never_raises (conn : JsonValue → Except String String)
    (q : String) :
    (∀ r, conn (.str q) = .ok r → ask_database conn (.str q) = r) ∧
    ∀ e, conn (.str q) = .error e →
      ask_database conn (.str q) = "query failed with error: " ++ e := by
  constructor
  · intro r h; simp [ask_database, h]
  · intro e h; simp [ask_database, h]

/-- C4 witness: evaluation on a failing syntactically invalid query. -/
theorem c4_ask_database_witness :
    ask_database connErrDemo (.str "SELEC count(*) from artists") =
      "query failed with error: near SELEC: syntax error" :=
  (c4_ask_database_never_raises connErrDemo "SELEC count(*) from artists").2
    "near SELEC: syntax error" rfl

/-- C9 counterexample: on a turn with no function_call and content `hi`, the
dispatch cell of the first unnamed notebook prints the diagnostic line
`no function was returned - hi`, which differs from the turn content `hi`
the claim requires as the unchanged output. -/
theorem c9_no_function_counterexample :
    run_nb1 loadsNoneDemo msgNoFc =
      some (.noFunction "no function was returned - hi") ∧
    "no function was returned - hi" ≠ "hi" := by
  exact ⟨rfl, by decide⟩

/-- C9 amended: on a turn with no function_call the dispatch invokes no
handler, and prints the fixed diagnostic line followed by the turn content
(`None` when the content is absent) — not the content unchanged. -/
theorem c9_no_function_amended (loads : String → Option JsonValue)
    (m : Message) (h : m.function_call = none) :
    run_nb1 loads m =
      some (.noFunction ("no function was returned - " ++ pyContent m.content)) := by
  simp [run_nb1, h]

/-- C9 witness: the amended statement evaluated on the concrete no-function
turn. -/
theorem c9_no_function_amended_witness :
    run_nb1 loadsC7 msgNoFc =
      some (.noFunction ("no function was returned - " ++ pyContent msgNoFc.content)) :=
  c9_no_function_amended loadsC7 msgNoFc rfl

/-- C1: a turn whose function_call names anything without a dispatch entry
makes `execute_function_call` return (not raise) the diagnostic
`Error: function <name> does not exist`, and `do_conversation` then appends
it as a function-role turn and proceeds to the follow-up round-trip. -/
theorem c1_unknown_function_diag (loads : String → Option JsonValue)
    (conn : JsonValue → Except String String) (m : Message) (fc : FunctionCall)
    (h1 : m.function_call = some fc) (h2 : fc.fn ≠ "ask_database") :
    execute_function_call loads conn m =
      some ("Error: function " ++ fc.fn ++ " does not exist") ∧
    ∀ (oracle : List Message → Bool → Option String → Message) (input : String),
      oracle [chinookSys, chinookUser input] true (some "ask_database") = m →
      do_conversation oracle loads conn input =
        some [chinookSys, chinookUser input, m,
          chinookFnTurn ("Error: function " ++ fc.fn ++ " does not exist") fc.fn,
          oracle [chinookSys, chinookUser input, m,
              chinookFnTurn ("Error: function " ++ fc.fn ++ " does not exist") fc.fn]
            false none] := by
  have hb : execute_function_call loads conn m =
      some ("Error: function " ++ fc.fn ++ " does not exist") := by
    simp [execute_function_call, h1, h2]
  refine ⟨hb, fun oracle input ho => ?_⟩
  simp [do_conversation, ho, h1, hb]

/-- C1 witness: the scenario model turn requesting `unicorn`; the broker
result is exactly `Error: function unicorn does not exist` and the exchange
reaches the follow-up reply. -/
theorem c1_unknown_function_diag_witness :
    execute_function_call loadsNoneDemo connOkDemo
        (oracleUnicorn [chinookSys, chinookUser "hi"] true (some "ask_database")) =
      some "Error: function unicorn does not exist" ∧
    do_conversation oracleUnicorn loadsNoneDemo connOkDemo "hi" =
      some [chinookSys, chinookUser "hi",
        oracleUnicorn [chinookSys, chinookUser "hi"] true (some "ask_database"),
        chinookFnTurn "Error: function unicorn does not exist" "unicorn",
        oracleUnicorn [chinookSys, chinookUser "hi",
            oracleUnicorn [chinookSys, chinookUser "hi"] true (some "ask_database"),
            chinookFnTurn "Error: function unicorn does not exist" "unicorn"]
          false none] := by
  have h := c1_unknown_function_diag loadsNoneDemo connOkDemo
    (oracleUnicorn [chinookSys, chinookUser "hi"] true (some "ask_database"))
    { fn := "unicorn", arguments := "\x7b\x7d" } rfl (by decide)
  exact ⟨h.1, h.2 oracleUnicorn "hi" rfl⟩

/-- C2 counterexample: on a turn for `ask_database` whose argument payload
is truncated JSON, the decode raises and the exception propagates out of
`execute_function_call` (modelled by `none`); the broker does not return an
ArgumentDecodeFailure result. -/
theorem c2_decode_failure_counterexample :
    execute_function_call loadsNoneDemo connOkDemo msgBadJson = none := rfl

/-- C2 amended: on a turn whose argument payload cannot be decoded, the
`json.loads` exception propagates uncaught out of `execute_function_call`;
the broker raises instead of returning a decode-failure result. -/
theorem c2_decode_failure_amended (loads : String → Option JsonValue)
    (conn : JsonValue → Except String String) (m : Message) (fc : FunctionCall)
    (h1 : m.function_call = some fc) (h2 : fc.fn = "ask_database")
    (h3 : loads fc.arguments = none) :
    execute_function_call loads conn m = none := by
  simp [execute_function_call, h1, h2, h3]

/-- C2 witness: the amended statement evaluated on a second malformed
payload. -/
theorem c2_decode_failure_amended_witness :
    execute_function_call loadsNoneDemo connOkDemo msgBadJson2 = none :=
  c2_decode_failure_amended loadsNoneDemo connOkDemo msgBadJson2
    { fn := "ask_database", arguments := "not json at all" } rfl rfl rfl

/-- C3 counterexample: the registered handler `add` raises on the parsed
argument list `["a"]` (Python `sum` adds the int `0` to a str), and the
dispatch cell propagates the exception — `run_nb1` is `none` and no textual
failure description is delivered through the result channel. -/
theorem c3_handler_raise_counterexample :
    add [JsonValue.str "a"] = none ∧
    run_nb1 loadsAddStr msgAddStr = none := ⟨rfl, rfl⟩

/-- C3 amended: the broker performs no catching of its own — whenever a
resolved handler raises on its spread arguments, the exception propagates
out of the dispatch; the only failure-to-text conversion happens inside the
`ask_database` handler, which catches its own query errors and returns
`query failed with error: ...` through the result channel. -/
theorem c3_handler_raise_amended :
    (∀ (loads : String → Option JsonValue) (m : Message) (fc : FunctionCall)
        (v f_args : JsonValue) (h : List JsonValue → Option JsonValue)
        (spread : List JsonValue),
      m.function_call = some fc → loads fc.arguments = some v →
      v.get "input" = some f_args → available_functions fc.fn = some h →
      pyIter f_args = some spread → h spread = none →
      run_nb1 loads m = none) ∧
    ∀ (conn : JsonValue → Except String String) (q : JsonValue) (e : String),
      conn q = .error e →
      ask_database conn q = "query failed with error: " ++ e := by
  constructor
  · intro loads m fc v f_args h spread h1 h2 h3 h4 h5 h6
    simp [run_nb1, h1, h2, h3, h4, h5, h6]
  · intro conn q e h
    simp [ask_database, h]

/-- C3 witness: both amended parts evaluated concretely — the `add` handler
raising on `["a"]` propagates out of the dispatch, and `ask_database`
converts a raising query into its textual description. -/
theorem c3_handler_raise_amended_witness :
    run_nb1 loadsAddStr msgAddStr = none ∧
    ask_database connErrDemo (.str "SELEC 1") =
      "query failed with error: near SELEC: syntax error" :=
  ⟨c3_handler_raise_amended.1 loadsAddStr msgAddStr
      { fn := "add", arguments := addStrPayload }
      (.obj [("input", .arr [.str "a"])]) (.arr [.str "a"]) add [.str "a"]
      rfl rfl rfl rfl rfl rfl,
    c3_handler_raise_amended.2 connErrDemo (.str "SELEC 1")
      "near SELEC: syntax error" rfl⟩

/-- C5: the driver invokes the broker iff the first model reply carries a
function_call.  With a function_call, it appends one function-role turn
tagged with the invoked function name and issues exactly one follow-up
request carrying the full turn history with no function list and no forced
function, appending its reply; with none, the exchange ends with the first
reply and no second request is issued. -/
theorem c5_driver_state_machine
    (oracle : List Message → Bool → Option String → Message)
    (loads : String → Option JsonValue)
    (conn : JsonValue → Except String String) (input : String) :
    ((oracle [chinookSys, chinookUser input] true
        (some "ask_database")).function_call = none →
      do_conversation oracle loads conn input =
        some [chinookSys, chinookUser input,
          oracle [chinookSys, chinookUser input] true (some "ask_database")]) ∧
    ∀ (fc : FunctionCall) (results : String),
      (oracle [chinookSys, chinookUser input] true
        (some "ask_database")).function_call = some fc →
      execute_function_call loads conn
        (oracle [chinookSys, chinookUser input] true (some "ask_database")) =
        some results →
      do_conversation oracle loads conn input =
        some [chinookSys, chinookUser input,
          oracle [chinookSys, chinookUser input] true (some "ask_database"),
          chinookFnTurn results fc.fn,
          oracle [chinookSys, chinookUser input,
              oracle [chinookSys, chinookUser input] true (some "ask_database"),
              chinookFnTurn results fc.fn]
            false none] := by
  constructor
  · intro h; simp [do_conversation, h]
  · intro fc results h1 h2; simp [do_conversation, h1, h2]

/-- C5 witness: the full two-round-trip exchange on a concrete
`ask_database` request, and the direct-answer branch is exercised through
the same theorem applied to an oracle that never requests a function. -/
theorem c5_driver_state_machine_witness :
    do_conversation oracleAsk loadsQueryDemo connOkDemo "how many artists" =
      some [chinookSys, chinookUser "how many artists",
        oracleAsk [chinookSys, chinookUser "how many artists"] true
          (some "ask_database"),
        chinookFnTurn "[(275,)]" "ask_database",
        oracleAsk [chinookSys, chinookUser "how many artists",
            oracleAsk [chinookSys, chinookUser "how many artists"] true
              (some "ask_database"),
            chinookFnTurn "[(275,)]" "ask_database"]
          false none] :=
  (c5_driver_state_machine oracleAsk loadsQueryDemo connOkDemo
      "how many artists").2
    { fn := "ask_database", arguments := qPayload } "[(275,)]" rfl rfl

/-- C6 counterexample: a transport failure raised by the HTTP post is
swallowed on the first attempt — `chat_completion_request` makes exactly one
attempt (no retry) and returns the exception as an ordinary value
(`Sum.inr`), not a surfaced terminal failure. -/
theorem c6_transport_no_retry_counterexample :
    chat_completion_request (some "sk-test") postFailDemo =
      (Except.ok (Sum.inr "ConnectionError"), 1) ∧
    (chat_completion_request (some "sk-test") postFailDemo).2 = 1 := ⟨rfl, rfl⟩

/-- C6 amended: the try/except inside `chat_completion_request` catches any
transport failure and returns the exception object as the value of a
successful first attempt, so the retry wrapper never retries a transport
failure; only an exception thrown before the try block — the `TypeError`
from a missing API credential — is retried for the full 3 attempts and then
surfaced as a raised failure. -/
theorem c6_retry_swallowed_amended {resp : Type}
    (post : Unit → Except String resp) (k e : String)
    (hp : post () = .error e) :
    chat_completion_request (some k) post = (Except.ok (Sum.inr e), 1) ∧
    ∀ post2 : Unit → Except String resp,
      chat_completion_request (none : Option String) post2 =
        (Except.error "TypeError: can only concatenate str (not NoneType) to str",
          3) := by
  constructor
  · refine (retryRun_ok _ (Sum.inr e) ?_ 3)
    simp [hp]
  · intro post2
    exact retryRun_error (E := String) (A := Sum resp String)
      (fun _ =>
        Except.error "TypeError: can only concatenate str (not NoneType) to str")
      "TypeError: can only concatenate str (not NoneType) to str" rfl 2

/-- C6 witness: the amended statement evaluated on a timing-out transport
with a present credential, and on the missing-credential configuration. -/
theorem c6_retry_swallowed_amended_witness :
    chat_completion_request (some "sk-test2") postFailDemo2 =
      (Except.ok (Sum.inr "ReadTimeout"), 1) ∧
    chat_completion_request (none : Option String) postFailDemo2 =
      (Except.error "TypeError: can only concatenate str (not NoneType) to str",
        3) :=
  ⟨(c6_retry_swallowed_amended postFailDemo2 "sk-test2" "ReadTimeout" rfl).1,
    (c6_retry_swallowed_amended postFailDemo2 "sk-test2" "ReadTimeout" rfl).2
      postFailDemo2⟩

end OpenAIInv
